import Mathlib

/-!
Verification of the Vitana Task Orchestration and Verification Engine
(services/agents/vitana-orchestrator) against its natural-language
specification.

The Python source is shallowly embedded: pure logic becomes Lean functions,
the filesystem below the workspace root becomes an explicit map from a
claim-relative path to the file's metadata, wall-clock readings become
explicit integer parameters, and the asynchronous per-task execution loop
becomes a function driven by an explicit list of adapter events.  Python
dictionaries that the code reads through fixed keys become Lean structures
with one field per key, where a missing key is the field's default.
-/

namespace Vitana

/-! ## String and character utilities

Python semantics that the orchestrator relies on, re-implemented over
character lists: case-insensitive comparison (the source only compares
ASCII), the regex whitespace class, substring search. -/

/-- Python regex whitespace class: space, tab, newline, carriage return,
vertical tab, form feed. -/
def isPySpace (c : Char) : Bool :=
  c = ' ' || c = '\t' || c = '\n' || c = '\r' || c = Char.ofNat 11 || c = Char.ofNat 12

/-- Case-insensitive character equality (ASCII lowering, as in re.IGNORECASE
for the ASCII input the validators process). -/
def lcEq (a b : Char) : Bool := a.toLower = b.toLower

/-- Match a literal (case-insensitively when ci is true) at the head of the
input; return the remaining input on success. -/
def matchLit (ci : Bool) : List Char → List Char → Option (List Char)
  | [], s => some s
  | _ :: _, [] => none
  | l :: ls, c :: cs => if (if ci then lcEq l c else l = c) then matchLit ci ls cs else none

/-- Consume one or more regex-whitespace characters (maximal munch). -/
def matchSpaces1 : List Char → Option (List Char)
  | c :: cs => if isPySpace c then some ((c :: cs).dropWhile isPySpace) else none
  | [] => none

/-- Consume zero or more regex-whitespace characters. -/
def matchSpaces0 (s : List Char) : List Char := s.dropWhile isPySpace

/-- Does the predicate hold at some suffix of the input?  This is the scan a
regex search performs over all start positions. -/
def searchSuffix (p : List Char → Bool) : List Char → Bool
  | [] => p []
  | s@(_ :: rest) => p s || searchSuffix p rest

theorem searchSuffix_of_head {p : List Char → Bool} {s : List Char} (h : p s) :
    searchSuffix p s = true := by
  cases s with
  | nil => simpa [searchSuffix] using h
  | cons c cs => simp [searchSuffix, h]

/-- Substring containment, as the Python expression needle in haystack. -/
def containsSub (hay needle : List Char) : Bool :=
  searchSuffix (fun s => (matchLit false needle s).isSome) hay

/-- Substring containment on strings. -/
def strContains (hay needle : String) : Bool :=
  containsSub hay.toList needle.toList

/-- Python str.lower for the ASCII text the checks process, on the character
list of the string (the position-based core implementation is avoided so the
definitions evaluate inside the kernel). -/
def strLower (s : String) : String := String.mk (s.data.map Char.toLower)

/-- Python str.upper for ASCII text. -/
def strUpper (s : String) : String := String.mk (s.data.map Char.toUpper)

/-- Python falsiness of a string: empty. -/
def strIsEmpty (s : String) : Bool := s.data.isEmpty

/-- Python str.endswith. -/
def strEndsWith (s suf : String) : Bool := suf.data.isSuffixOf s.data

/-- Python str.startswith. -/
def strStartsWith (s pre : String) : Bool := pre.data.isPrefixOf s.data

/-- Replace every non-overlapping occurrence of a nonempty pattern, scanning
left to right, as Python str.replace does. -/
def replaceSubAux (pat rep : List Char) : Nat → List Char → List Char
  | 0, s => s
  | _ + 1, [] => []
  | n + 1, s@(c :: cs) =>
    match matchLit false pat s with
    | some rest => rep ++ replaceSubAux pat rep n rest
    | none => c :: replaceSubAux pat rep n cs

/-- Python str.replace on strings (the patterns used are nonempty). -/
def strReplace (s pat rep : String) : String :=
  String.mk (replaceSubAux pat.data rep.data s.data.length s.data)

/-- Split a character list on a separator character; Python str.split with a
one-character separator ("".split yields one empty field as in Python). -/
def splitOnChar (sep : Char) : List Char → List (List Char)
  | [] => [[]]
  | c :: cs =>
    match splitOnChar sep cs with
    | [] => [[c]]
    | h :: t => if c = sep then [] :: h :: t else (c :: h) :: t

/-- Join strings with a separator, as Python str.join. -/
def strIntercalate (sep : String) : List String → String
  | [] => ""
  | [x] => x
  | x :: xs => x ++ sep ++ strIntercalate sep xs

/-! ## Specialized regex models

Each Python regex the validators use is embedded as a deterministic matcher.
The patterns have no essential backtracking: every quantified piece is either
a whitespace run followed by a literal that starts with a non-space character,
or a maximal character-class run followed by a character outside the class,
so maximal munch is exact.  The one exception, the optional
IF NOT EXISTS group of the CREATE TABLE pattern, is tried greedily first and
dropped on failure, exactly as the regex engine backtracks. -/

/-- Match the tail of re pattern CREATE\s+TABLE\s+(?:IF\s+NOT\s+EXISTS\s+)?([^\s(]+)
after CREATE\s+TABLE\s+ has been consumed: the optional group, then the
captured name.  Returns (captured name, rest of input). -/
def matchCreateTableTail (s : List Char) : Option (List Char × List Char) :=
  let cap : List Char → Option (List Char × List Char) := fun t =>
    let name := t.takeWhile (fun c => !isPySpace c && c ≠ '(')
    if name.isEmpty then none else some (name, t.drop name.length)
  let grp : Option (List Char) :=
    (matchLit true "if".toList s).bind matchSpaces1 |>.bind (matchLit true "not".toList)
      |>.bind matchSpaces1 |>.bind (matchLit true "exists".toList) |>.bind matchSpaces1
  match grp with
  | some t => (cap t).orElse (fun _ => cap s)
  | none => cap s

/-- Match re pattern CREATE\s+TABLE\s+(?:IF\s+NOT\s+EXISTS\s+)?([^\s(]+)
(IGNORECASE) at the current position. -/
def matchCreateTableAt (s : List Char) : Option (List Char × List Char) :=
  ((matchLit true "create".toList s).bind matchSpaces1 |>.bind (matchLit true "table".toList)
    |>.bind matchSpaces1).bind matchCreateTableTail

/-- The scan of re.findall: try to match at each position; on a match, record
the capture and resume after the match.  Fuel bounds the recursion (the
pattern always consumes at least one character, so length suffices). -/
def findCreateTablesAux : Nat → List Char → List (List Char)
  | 0, _ => []
  | _ + 1, [] => []
  | n + 1, s@(_ :: rest) =>
    match matchCreateTableAt s with
    | some (name, after) => name :: findCreateTablesAux n after
    | none => findCreateTablesAux n rest

/-- All captures of re.findall(CREATE\s+TABLE\s+(?:IF\s+NOT\s+EXISTS\s+)?([^\s(]+),
content, IGNORECASE), in order. -/
def findCreateTables (content : List Char) : List (List Char) :=
  findCreateTablesAux content.length content

/-- Match a case-insensitive sequence of literal words separated by \s+ at the
current position. -/
def matchWordSeq : List (List Char) → List Char → Option (List Char)
  | [], s => some s
  | [w], s => matchLit true w s
  | w :: ws, s => ((matchLit true w s).bind matchSpaces1).bind (matchWordSeq ws)

/-- Search for re pattern ALTER\s+TABLE\s+(table)\s+ENABLE\s+ROW\s+LEVEL\s+SECURITY
(IGNORECASE); the table name is an escaped literal. -/
def hasAlterRls (content table : List Char) : Bool :=
  searchSuffix (fun s =>
    (matchWordSeq ["alter".toList, "table".toList, table,
      "enable".toList, "row".toList, "level".toList, "security".toList] s).isSome) content

/-- Search for re pattern CREATE\s+POLICY\s+\S+\s+ON\s+(table) (IGNORECASE).
The \S+ policy name is forced to a whole whitespace-delimited token. -/
def hasCreatePolicyOn (content table : List Char) : Bool :=
  searchSuffix (fun s =>
    (((matchLit true "create".toList s).bind matchSpaces1
      |>.bind (matchLit true "policy".toList) |>.bind matchSpaces1).bind (fun t =>
        let tok := t.takeWhile (fun c => !isPySpace c)
        if tok.isEmpty then none else matchSpaces1 (t.drop tok.length))
      |>.bind (matchLit true "on".toList) |>.bind matchSpaces1
      |>.bind (matchLit true table)).isSome) content

/-- Search for re pattern DROP\s+TABLE (IGNORECASE). -/
def hasDropTable (content : List Char) : Bool :=
  searchSuffix (fun s => (matchWordSeq ["drop".toList, "table".toList] s).isSome) content

/-- Match the body of a BackendValidator secret pattern at the current
position: the keyword, \s*, an equals sign, \s*, a quote (double or single),
one or more non-quote characters, a quote.  Case-insensitive (re.IGNORECASE). -/
def matchSecretAt (kw : List Char) (s : List Char) : Bool :=
  match matchLit true kw s with
  | none => false
  | some t =>
    match matchSpaces0 t with
    | '=' :: u =>
      match matchSpaces0 u with
      | q :: v =>
        if q = '"' || q = '\'' then
          let body := v.takeWhile (fun c => c ≠ '"' && c ≠ '\'')
          if body.isEmpty then false
          else match v.drop body.length with
            | q2 :: _ => q2 = '"' || q2 = '\''
            | [] => false
        else false
      | [] => false
    | _ => false

/-- Search for one of the BackendValidator SECRET_PATTERNS given its keyword. -/
def hasSecretPattern (content kw : List Char) : Bool :=
  searchSuffix (matchSecretAt kw) content

/-- Is there a plus sign before the first newline? This is what the trailing
.*\+ of the SQL-injection patterns asks after the opening quote (re dot does
not cross a newline). -/
def plusBeforeNewline : List Char → Bool
  | [] => false
  | '\n' :: _ => false
  | '+' :: _ => true
  | _ :: rest => plusBeforeNewline rest

/-- Match re pattern fname\s*\(\s*["'].*\+ at the current position
(case-sensitive, as _has_sql_injection_risk passes no flags). -/
def matchCallConcatAt (fname : List Char) (s : List Char) : Bool :=
  match matchLit false fname s with
  | none => false
  | some t =>
    match matchSpaces0 t with
    | '(' :: u =>
      match matchSpaces0 u with
      | q :: v => (q = '"' || q = '\'') && plusBeforeNewline v
      | [] => false
    | _ => false

/-- Is there a dollar sign immediately followed by an opening brace before the
first newline?  This is the trailing piece of the template-literal
SQL-injection pattern. -/
def dollarBraceBeforeNewline : List Char → Bool
  | '$' :: '{' :: _ => true
  | '\n' :: _ => false
  | _ :: rest => dollarBraceBeforeNewline rest
  | [] => false

/-- The three risky_patterns of BackendValidator._has_sql_injection_risk. -/
def hasSqlInjectionRisk (content : List Char) : Bool :=
  searchSuffix (matchCallConcatAt "query".toList) content ||
  searchSuffix (matchCallConcatAt "execute".toList) content ||
  searchSuffix (fun s =>
    match s with
    | '`' :: t =>
      match matchLit false "SELECT".toList t with
      | some u => dollarBraceBeforeNewline u
      | none => false
    | _ => false) content

/-- Match re pattern lit\s*end at the current position (case-sensitive):
a literal, optional spaces, then a single closing character. -/
def matchLitSpacesCharAt (lit : List Char) (close : Char) (s : List Char) : Bool :=
  match matchLit false lit s with
  | none => false
  | some t =>
    match matchSpaces0 t with
    | c :: _ => c = close
    | [] => false

/-- The error_patterns of BackendValidator._has_error_handling (case-sensitive). -/
def hasErrorHandling (content : List Char) : Bool :=
  searchSuffix (matchLitSpacesCharAt "try".toList '{') content ||
  searchSuffix (matchLitSpacesCharAt "catch".toList '(') content ||
  searchSuffix (matchLitSpacesCharAt ".catch".toList '(') content ||
  containsSub content "errorHandler".toList ||
  containsSub content "asyncHandler".toList

/-- Match the FrontendValidator inline-style pattern at the current position
(case-sensitive): the literal style, \s*, an equals sign, \s*, an opening
brace, one or more non-closing-brace characters, a closing brace. -/
def matchInlineStyleAt (s : List Char) : Bool :=
  match matchLit false "style".toList s with
  | none => false
  | some t =>
    match matchSpaces0 t with
    | '=' :: u =>
      match matchSpaces0 u with
      | '{' :: v =>
        let body := v.takeWhile (fun c => c ≠ '}')
        if body.isEmpty then false
        else match v.drop body.length with
          | '}' :: _ => true
          | _ => false
      | _ => false
    | _ => false

/-- Search for the inline-style pattern anywhere in the content. -/
def hasInlineStyle (content : List Char) : Bool :=
  searchSuffix matchInlineStyleAt content

/-! ## Data model

The dictionaries of the Python source, embedded as structures.  An Option
field models a dictionary key that may be absent; reading a key with a
default becomes Option.getD. -/

/-- One entry of a claimed change list: a dictionary with keys file_path,
action and content.  file_path is none when the key is absent; the code
treats an absent key and an empty string alike (both are falsy). -/
structure Change where
  file_path : Option String := none
  action : Option String := none
  content : Option String := none
deriving DecidableEq, Repr

/-- change.get("file_path", "") as the validators and the stage gate read it. -/
def Change.pathD (c : Change) : String := c.file_path.getD ""

/-- change.get("action", "modified") as the file checks read it. -/
def Change.actionD (c : Change) : String := c.action.getD "modified"

/-- Python truthiness of change.get("file_path"): false for an absent key and
for the empty string. -/
def Change.pathTruthy (c : Change) : Bool :=
  match c.file_path with
  | none => false
  | some s => !strIsEmpty s

/-- The dictionary an adapter returns as its completion claim; the verifier
reads the keys changes and artifacts (each defaulting to an empty list). -/
structure ClaimedResult where
  changes : List Change := []
  artifacts : List String := []
deriving DecidableEq, Repr

/-- Metadata of a file that exists under the workspace root: its modification
time (an integer timestamp) and its textual content. -/
structure FileInfo where
  mtime : Int := 0
  content : String := ""
deriving DecidableEq, Repr

/-- The filesystem below a workspace root: maps a claim-relative path to the
file's metadata when the joined path exists, none otherwise.  Filesystem
probes (exists, stat, read_text) become lookups in this map. -/
def FS := String → Option FileInfo

/-- A validation issue dictionary: keys file, issue, severity. -/
structure Issue where
  file : String
  issue : String
  severity : String
deriving DecidableEq, Repr

/-- The details dictionary of a ValidationResult: the issues key (defaulting
to an empty list for the empty dictionary) and the critical_count key. -/
structure VDetails where
  issues : List Issue := []
  critical_count : Option Nat := none
deriving DecidableEq, Repr

/-- ValidationResult of verification/validators.py. -/
structure ValidationResult where
  passed : Bool
  reason : String := ""
  details : VDetails := {}
  retriable : Bool := true
deriving DecidableEq, Repr

/-! ## Domain validators (verification/validators.py) -/

/-- FrontendValidator._is_frontend_file: one of the patterns occurs in the
lowercased path. -/
def isFrontendFile (path : String) : Bool :=
  ["frontend/", ".tsx", ".jsx", ".css", ".html", "web/"].any
    (fun p => strContains (strLower path) p)

/-- The issues FrontendValidator._validate_changes_impl collects for one
change entry.  Entries with a falsy path, non-frontend paths and paths that
do not exist under the workspace are skipped. -/
def frontendFileIssues (fp : String) (content : String) : List Issue :=
  (if strContains content "console.log" then
    [⟨fp, "console.log found in production code", "warning"⟩] else []) ++
  (if hasInlineStyle content.toList then
    [⟨fp, "Inline styles found - prefer Tailwind classes", "info"⟩] else []) ++
  (if strContains content "<img" && !strContains content "alt=" then
    [⟨fp, "Image missing alt attribute", "warning"⟩] else [])

/-- All issues FrontendValidator collects over a change list. -/
def frontendIssues (changes : List Change) (fs : FS) : List Issue :=
  (changes.map (fun c =>
    let fp := c.pathD
    if strIsEmpty fp then []
    else if !isFrontendFile fp then []
    else match fs fp with
      | none => []
      | some fi => frontendFileIssues fp fi.content)).flatten

/-- BackendValidator._is_backend_file. -/
def isBackendFile (path : String) : Bool :=
  if strContains (strLower path) "frontend/" then false
  else ["/routes/", "/controllers/", "/services/", "/middleware/", "/api/", ".ts", ".py"].any
    (fun p => strContains (strLower path) p)

/-- BackendValidator._is_route_file. -/
def isRouteFile (path : String) : Bool :=
  strContains (strLower path) "/routes/" || strContains (strLower path) "router"

/-- The keywords of BackendValidator.SECRET_PATTERNS, in order. -/
def secretKeywords : List String := ["password", "api_key", "secret", "token"]

/-- The issues BackendValidator._validate_changes_impl collects for one file:
one critical issue per secret pattern that matches, one critical issue on
SQL-injection risk, and a warning for a route file without error handling. -/
def backendFileIssues (fp : String) (content : String) : List Issue :=
  (secretKeywords.map (fun kw =>
    if hasSecretPattern content.toList kw.toList then
      [Issue.mk fp "Possible hardcoded secret detected" "critical"] else [])).flatten ++
  (if hasSqlInjectionRisk content.toList then
    [⟨fp, "Potential SQL injection vulnerability", "critical"⟩] else []) ++
  (if isRouteFile fp && !hasErrorHandling content.toList then
    [⟨fp, "Route handler missing error handling", "warning"⟩] else [])

/-- All issues BackendValidator collects over a change list. -/
def backendIssues (changes : List Change) (fs : FS) : List Issue :=
  (changes.map (fun c =>
    let fp := c.pathD
    if strIsEmpty fp then []
    else if !isBackendFile fp then []
    else match fs fp with
      | none => []
      | some fi => backendFileIssues fp fi.content)).flatten

/-- MemoryValidator._has_rls_policy: an ALTER TABLE ... ENABLE ROW LEVEL
SECURITY or a CREATE POLICY ... ON for the table, anywhere in the file. -/
def hasRlsPolicy (content : String) (table : List Char) : Bool :=
  hasAlterRls content.toList table || hasCreatePolicyOn content.toList table

/-- The issues MemoryValidator._validate_changes_impl collects for one SQL
file: a critical issue per CREATE TABLE capture without an RLS policy, a
critical issue on DROP TABLE, and a warning when more than one table is
created without a BEGIN in the upper-cased content. -/
def memoryFileIssues (fp : String) (content : String) : List Issue :=
  let tables := findCreateTables content.toList
  (tables.map (fun t =>
    if !hasRlsPolicy content t then
      [Issue.mk fp ("Table " ++ String.mk t ++ " created without RLS policy") "critical"]
    else [])).flatten ++
  (if hasDropTable content.toList then
    [⟨fp, "DROP TABLE detected - requires confirmation", "critical"⟩] else []) ++
  (if !strContains (strUpper content) "BEGIN" && tables.length > 1 then
    [⟨fp, "Multiple tables created without transaction wrapper", "warning"⟩] else [])

/-- All issues MemoryValidator collects over a change list: only paths ending
in .sql that exist under the workspace are read. -/
def memoryIssues (changes : List Change) (fs : FS) : List Issue :=
  (changes.map (fun c =>
    let fp := c.pathD
    if strIsEmpty fp then []
    else if !strEndsWith fp ".sql" then []
    else match fs fp with
      | none => []
      | some fi => memoryFileIssues fp fi.content)).flatten

/-- The shared result assembly of the three validators: fail exactly when a
critical issue was collected; the failing result carries the validator's
failure reason and retriable flag, the passing one a warning count. -/
def assembleValidationResult (failReason passPrefix : String) (failRetriable : Bool)
    (issues : List Issue) : ValidationResult :=
  let crit := issues.filter (fun i => i.severity = "critical")
  if !crit.isEmpty then
    { passed := false
      reason := failReason ++ toString crit.length ++ " critical issue(s)"
      details := { issues := issues, critical_count := some crit.length }
      retriable := failRetriable }
  else
    { passed := true
      reason := passPrefix ++
        (if !issues.isEmpty then " with " ++ toString issues.length ++ " warning(s)" else "")
      details := if !issues.isEmpty then { issues := issues } else {} }

/-- The three registered validators. -/
inductive VKind
  | frontend
  | backend
  | memory
deriving DecidableEq, Repr

/-- The name attribute of each validator class. -/
def VKind.vname : VKind → String
  | .frontend => "frontend"
  | .backend => "backend"
  | .memory => "memory"

/-- The issue list a validator collects. -/
def validatorIssues : VKind → List Change → FS → List Issue
  | .frontend => frontendIssues
  | .backend => backendIssues
  | .memory => memoryIssues

/-- A validator's validate_changes over a change list and workspace:
FrontendValidator never marks a failure retriable=false; BackendValidator and
MemoryValidator do. -/
def validatorResult : VKind → List Change → FS → ValidationResult
  | .frontend, changes, fs =>
    assembleValidationResult "Frontend validation failed: " "Frontend validation passed" true
      (frontendIssues changes fs)
  | .backend, changes, fs =>
    assembleValidationResult "Security validation failed: " "Backend validation passed" false
      (backendIssues changes fs)
  | .memory, changes, fs =>
    assembleValidationResult "Memory validation failed: " "Memory validation passed" false
      (memoryIssues changes fs)

/-- The task domains. -/
inductive TaskDomain
  | frontend
  | backend
  | memory
  | mixed
deriving DecidableEq, Repr

/-- get_validators_for_domain of verification/validators.py: mixed selects all
three validators. -/
def validatorsForDomain : TaskDomain → List VKind
  | .frontend => [.frontend]
  | .backend => [.backend]
  | .memory => [.memory]
  | .mixed => [.frontend, .backend, .memory]

/-! ## Safety checker (safety.py) -/

/-- SafetyChecker.FORBIDDEN_PATHS (iteration order is irrelevant: only
membership is tested). -/
def defaultForbiddenPaths : List String :=
  [".git", ".env", ".env.local", ".env.production", "credentials.json",
   "serviceAccountKey.json", "secrets/", "node_modules/", "__pycache__/"]

/-- SafetyCheckResult of safety.py. -/
structure SafetyCheckResult where
  safe : Bool
  reason : String := ""
  blocked_items : List String := []
deriving DecidableEq, Repr

/-- SafetyChecker construction state: the forbidden-path set and the scope
defaults MAX_FILES_DEFAULT = 20, MAX_DIRECTORIES_DEFAULT = 10. -/
structure SafetyChecker where
  forbidden_paths : List String := defaultForbiddenPaths
  max_files : Int := 20
  max_directories : Int := 10
deriving Repr

/-- A task's optional change_budget dictionary with keys max_files and
max_directories; an absent key falls back to the checker's limit. -/
structure Budget where
  max_files : Option Int := none
  max_directories : Option Int := none
deriving DecidableEq, Repr

/-- The fields of TaskConfig that the safety checker reads. -/
structure TaskConfig where
  vtid : String := ""
  title : String := ""
  description : String := ""
  target_paths : List String := []
  change_budget : Option Budget := none
deriving Repr

/-- SafetyChecker._is_forbidden_path: some forbidden entry is a substring of
the lowercased path. -/
def isForbiddenPath (chk : SafetyChecker) (path : String) : Bool :=
  chk.forbidden_paths.any (fun f => strContains (strLower path) f)

/-- SafetyChecker._check_paths. -/
def checkPaths (chk : SafetyChecker) (paths : List String) : SafetyCheckResult :=
  let blocked := paths.filter (isForbiddenPath chk)
  if !blocked.isEmpty then
    { safe := false, reason := "Task targets forbidden paths", blocked_items := blocked }
  else { safe := true }

/-- pathlib PurePosixPath(path).parts for POSIX paths: components split on
slashes with empty and single-dot components collapsed, and a leading root
component for absolute paths (the rare double-slash root is not
distinguished). -/
def pathParts (p : String) : List String :=
  let comps := ((splitOnChar '/' p.data).map String.mk).filter
    (fun s => !strIsEmpty s && s ≠ ".")
  if strStartsWith p "/" then "/" :: comps else comps

/-- The directory set SafetyChecker._check_scope builds: for a one-component
path the component itself, otherwise the slash-join of all components but the
last; counted as a set. -/
def scopeDirectories (paths : List String) : List String :=
  (paths.filterMap (fun p =>
    match pathParts p with
    | [] => none
    | [x] => some x
    | parts => some (strIntercalate "/" parts.dropLast))).dedup

/-- SafetyChecker._check_scope: the effective limits come from the task's
change_budget with the checker's values as defaults; the file count is
checked first, then the distinct-directory count. -/
def checkScope (chk : SafetyChecker) (task : TaskConfig) : SafetyCheckResult :=
  let budget := task.change_budget.getD {}
  let maxFiles := budget.max_files.getD chk.max_files
  let maxDirs := budget.max_directories.getD chk.max_directories
  let dirs := scopeDirectories task.target_paths
  if (task.target_paths.length : Int) > maxFiles then
    { safe := false
      reason := "Task targets too many files (" ++ toString task.target_paths.length ++
        " > " ++ toString maxFiles ++ ")" }
  else if (dirs.length : Int) > maxDirs then
    { safe := false
      reason := "Task spans too many directories (" ++ toString dirs.length ++
        " > " ++ toString maxDirs ++ ")" }
  else { safe := true }

/-- SafetyChecker.check_task: forbidden paths first, then scope. -/
def checkTask (chk : SafetyChecker) (task : TaskConfig) : SafetyCheckResult :=
  let pr := checkPaths chk task.target_paths
  if !pr.safe then pr
  else
    let sr := checkScope chk task
    if !sr.safe then sr
    else { safe := true, reason := "All safety checks passed" }

/-- Modelled from the spec's words, for comparison with the code: the scope
check rejects exactly when the number of target paths exceeds the file budget
or the number of distinct top-level directories among the target paths
exceeds the directory budget. -/
def specScopeRejects (chk : SafetyChecker) (task : TaskConfig) : Bool :=
  let budget := task.change_budget.getD {}
  let maxFiles := budget.max_files.getD chk.max_files
  let maxDirs := budget.max_directories.getD chk.max_directories
  let topDirs := (task.target_paths.filterMap (fun p => (pathParts p).head?)).dedup
  (task.target_paths.length : Int) > maxFiles || (topDirs.length : Int) > maxDirs

/-! ## Task model (main.py) -/

/-- TaskStatus of main.py. -/
inductive TaskStatus
  | pending
  | routing
  | dispatched
  | inProgress
  | verifying
  | verificationFailed
  | retryPending
  | completed
  | failed
  | timeout
  | cancelled
deriving DecidableEq, Repr

/-- TaskState.is_terminal. -/
def TaskStatus.isTerminal : TaskStatus → Bool
  | .completed => true
  | .failed => true
  | .timeout => true
  | .cancelled => true
  | _ => false

/-- VerificationResult of main.py (constructors are capitalized Lean-side). -/
inductive VerificationResult
  | Passed
  | Failed
  | Partial
  | NeedsRetry
  | CannotVerify
deriving DecidableEq, Repr

/-- The task metadata dictionary, restricted to the keys the embedded code
reads or writes: run_tests (absent means the default true), the
expected_artifacts list, the remaining_work list a partial completion stores,
and the keys the preflight and postflight hooks write (collected as a key
list; their values are constant passing stubs in the source). -/
structure TaskMeta where
  run_tests : Option Bool := none
  expected_artifacts : List String := []
  remaining_work : List String := []
  hook_keys : List String := []
deriving DecidableEq, Repr

/-- The details dictionary of the orchestrator's VerificationOutcome,
restricted to the keys orchestrator.py writes or reads. -/
structure ODetails where
  check_failed : Option String := none
  missing_files : List String := []
  validator : Option String := none
  validation_details : Option VDetails := none
  missing_artifacts : List String := []
  test_failures : List String := []
  remaining_work : List String := []
deriving DecidableEq, Repr

/-- TaskState of main.py.  Timestamps are integer clock readings; the entries
of error_history (dictionaries with a timestamp and the error text) are
embedded as their error strings. -/
structure TaskState where
  task_id : String := ""
  vtid : String := ""
  title : String := ""
  description : String := ""
  domain : TaskDomain
  status : TaskStatus := .pending
  assigned_agent : Option String := none
  assigned_at : Option Int := none
  started_at : Option Int := none
  completed_at : Option Int := none
  verification_attempts : Nat := 0
  last_verification_at : Option Int := none
  verification_result : Option VerificationResult := none
  verification_details : ODetails := {}
  retry_count : Nat := 0
  max_retries : Nat := 3
  retry_reasons : List String := []
  result : Option ClaimedResult := none
  artifacts : List String := []
  changes_made : List Change := []
  error : Option String := none
  error_history : List String := []
  metadata : TaskMeta := {}
  target_paths : List String := []
  change_budget : Option Budget := none
  oasis_events : List String := []
deriving DecidableEq, Repr

/-- TaskState.is_terminal. -/
def TaskState.isTerminal (t : TaskState) : Bool := t.status.isTerminal

/-- TaskState.can_retry. -/
def TaskState.canRetry (t : TaskState) : Bool :=
  !t.isTerminal && t.retry_count < t.max_retries

/-! ## Completion Verifier (verification/verifier.py) -/

/-- VerificationConfig of verifier.py (the fields verify regards; the unused
file-content and coverage knobs are never read by verify). -/
structure VerificationConfig where
  verify_files_exist : Bool := true
  verify_files_modified : Bool := true
  run_tests : Bool := true
  run_domain_validators : Bool := true
  verify_artifacts : Bool := true
deriving Repr

/-- One entry of the failures list the domain-validation stage accumulates. -/
structure VFailure where
  validator : String
  reason : String
  details : VDetails := {}
deriving DecidableEq, Repr

/-- The details dictionary of a CheckResult, restricted to the keys the
stages write. -/
structure CDetails where
  missing_files : List String := []
  verified_count : Option Nat := none
  not_modified : List String := []
  failures : List VFailure := []
  test_files : List String := []
  missing : List String := []
  expected : List String := []
  actual : List String := []
deriving DecidableEq, Repr

/-- CheckResult of verifier.py. -/
structure CheckResult where
  passed : Bool
  reason : String := ""
  details : CDetails := {}
deriving DecidableEq, Repr

/-- The f-string rendering of a Python list of plain strings (no quote or
escape characters occur in the rendered paths). -/
def pyStrList (xs : List String) : String :=
  "[" ++ strIntercalate ", " (xs.map (fun s => "'" ++ s ++ "'")) ++ "]"

/-- The missing-path list of CompletionVerifier._verify_files_exist: entries
with a falsy path are skipped, deleted entries are skipped, the rest must
exist under the workspace root. -/
def missingFilesList (changes : List Change) (fsW : FS) : List String :=
  changes.filterMap (fun c =>
    match c.file_path with
    | none => none
    | some fp =>
      if strIsEmpty fp then none
      else if c.actionD = "deleted" then none
      else if (fsW fp).isNone then some fp else none)

/-- CompletionVerifier._verify_files_exist. -/
def verifyFilesExist (changes : List Change) (fsW : FS) : CheckResult :=
  let missing := missingFilesList changes fsW
  if !missing.isEmpty then
    { passed := false
      reason := "Claimed files do not exist: " ++ pyStrList missing
      details := { missing_files := missing } }
  else
    { passed := true
      reason := "All claimed files exist"
      details := { verified_count := some changes.length } }

/-- The not-modified list of CompletionVerifier._verify_files_modified:
entries with a falsy path or the deleted action are skipped, paths that do
not exist are skipped, and an existing path is flagged exactly when its mtime
is strictly before the task's start time. -/
def notModifiedList (changes : List Change) (fsW : FS) (startedAt : Int) : List String :=
  changes.filterMap (fun c =>
    match c.file_path with
    | none => none
    | some fp =>
      if strIsEmpty fp || c.actionD = "deleted" then none
      else match fsW fp with
        | none => none
        | some fi => if fi.mtime < startedAt then some fp else none)

/-- CompletionVerifier._verify_files_modified: without a start time the check
passes vacuously. -/
def verifyFilesModified (task : TaskState) (changes : List Change) (fsW : FS) : CheckResult :=
  match task.started_at with
  | none => { passed := true, reason := "Cannot verify modification times (no start time)" }
  | some t =>
    let nm := notModifiedList changes fsW t
    if !nm.isEmpty then
      { passed := false
        reason := "Files claim to be modified but weren't: " ++ pyStrList nm
        details := { not_modified := nm } }
    else { passed := true, reason := "File modification times verified" }

/-- CompletionVerifier._run_domain_validators: every selected validator runs
(the validators are total functions, so the exception branch is vacuous) and
each failing one contributes a failures entry. -/
def domainValidatorsCheck (task : TaskState) (changes : List Change) (fsE : FS) : CheckResult :=
  let failures := (validatorsForDomain task.domain).filterMap (fun k =>
    let r := validatorResult k changes fsE
    if !r.passed then some (VFailure.mk k.vname r.reason r.details) else none)
  if !failures.isEmpty then
    { passed := false
      reason := "Domain validation failed: " ++ toString failures.length ++ " issue(s)"
      details := { failures := failures } }
  else { passed := true, reason := "Domain validation passed" }

/-- os.path.dirname for POSIX paths. -/
def posixDirname (p : String) : String :=
  let s := p.toList
  let tail := (s.reverse.takeWhile (fun c => c ≠ '/')).reverse
  let head := s.take (s.length - tail.length)
  if head.isEmpty then ""
  else if head.all (fun c => c = '/') then String.mk head
  else String.mk ((head.reverse.dropWhile (fun c => c = '/')).reverse)

/-- os.path.basename for POSIX paths. -/
def posixBasename (p : String) : String :=
  String.mk ((p.toList.reverse.takeWhile (fun c => c ≠ '/')).reverse)

/-- os.path.join of a directory and a relative name. -/
def posixJoin (a b : String) : String :=
  if strStartsWith b "/" then b
  else if strIsEmpty a then b
  else if strEndsWith a "/" then a ++ b
  else a ++ "/" ++ b

/-- The related-test derivation of CompletionVerifier._run_tests: TypeScript
files map through str.replace of every ".ts" occurrence, Python files map to
a test_ prefixed basename in the same directory. -/
def relatedTestFiles (changes : List Change) : List String :=
  changes.filterMap (fun c =>
    let fp := c.pathD
    if strEndsWith fp ".ts" || strEndsWith fp ".tsx" then
      some (strReplace fp ".ts" ".test.ts")
    else if strEndsWith fp ".py" then
      some (posixJoin (posixDirname fp) ("test_" ++ posixBasename fp))
    else none)

/-- CompletionVerifier._run_tests: no runner is wired, so the stage always
passes, with a note when related test files were derived. -/
def runTestsCheck (changes : List Change) : CheckResult :=
  let tf := relatedTestFiles changes
  if tf.isEmpty then { passed := true, reason := "No related tests found" }
  else
    { passed := true
      reason := "Tests passed (" ++ toString tf.length ++ " test files)"
      details := { test_files := tf } }

/-- Python set difference set(a) - set(b), as a list of the distinct elements
of a that do not occur in b (set iteration order is hash-dependent in Python;
only membership and cardinality are relied upon). -/
def pySetDiff (a b : List String) : List String :=
  a.dedup.filter (fun x => !b.contains x)

/-- CompletionVerifier._verify_artifacts. -/
def verifyArtifactsCheck (task : TaskState) (r : ClaimedResult) : CheckResult :=
  let expected := task.metadata.expected_artifacts
  if expected.isEmpty then { passed := true, reason := "No expected artifacts specified" }
  else
    let missing := pySetDiff expected r.artifacts
    if !missing.isEmpty then
      { passed := false
        reason := "Missing expected artifacts: " ++ pyStrList missing
        details := { missing := missing, expected := expected, actual := r.artifacts } }
    else { passed := true, reason := "All expected artifacts present" }

/-- The details dictionary of the verifier's VerificationOutcome, restricted
to the keys verify writes. -/
structure VODetails where
  suspicious : Bool := false
  test_failures : List VFailure := []
  missing_artifacts : List String := []
deriving DecidableEq, Repr

/-- VerificationOutcome of verifier.py. -/
structure VOutcome where
  result : VerificationResult := .CannotVerify
  reason : String := ""
  details : VODetails := {}
  checks : List (String × CheckResult) := []
  duration_ms : Int := 0
deriving DecidableEq, Repr

/-- CompletionVerifier.verify before the finally block: the enabled stages in
order with short-circuit on the first failing stage.  The fsW map is the
filesystem under the verifier's configured workspace root (stages 1 and 2);
fsE is the one under the WORKSPACE_PATH environment root through which
Validator.validate reads files (stage 3). -/
def verifierVerifyCore (cfg : VerificationConfig) (task : TaskState) (r : ClaimedResult)
    (fsW fsE : FS) : VOutcome := Id.run do
  let mut o : VOutcome := {}
  if cfg.verify_files_exist then
    let fc := verifyFilesExist r.changes fsW
    o := { o with checks := o.checks ++ [("files_exist", fc)] }
    if !fc.passed then
      return { o with result := .Failed, reason := fc.reason }
  if cfg.verify_files_modified then
    let mc := verifyFilesModified task r.changes fsW
    o := { o with checks := o.checks ++ [("files_modified", mc)] }
    if !mc.passed then
      return { o with
        result := .Failed
        reason := mc.reason
        details := { o.details with suspicious := true } }
  if cfg.run_domain_validators then
    let dc := domainValidatorsCheck task r.changes fsE
    o := { o with checks := o.checks ++ [("domain_validation", dc)] }
    if !dc.passed then
      return { o with result := .Failed, reason := dc.reason }
  if cfg.run_tests && task.metadata.run_tests.getD true then
    let tc := runTestsCheck r.changes
    o := { o with checks := o.checks ++ [("tests", tc)] }
    if !tc.passed then
      return { o with
        result := .Failed
        reason := tc.reason
        details := { o.details with test_failures := tc.details.failures } }
  if cfg.verify_artifacts then
    let ac := verifyArtifactsCheck task r
    o := { o with checks := o.checks ++ [("artifacts", ac)] }
    if !ac.passed then
      return { o with
        result := .Partial
        reason := ac.reason
        details := { o.details with missing_artifacts := ac.details.missing } }
  return { o with result := .Passed, reason := "All verification checks passed" }

/-- CompletionVerifier.verify: the stage pipeline, then the finally block
stamps the measured wall-clock duration, given here as the explicit
elapsed_ms parameter (the difference of the two datetime.now readings). -/
def verifierVerify (cfg : VerificationConfig) (task : TaskState) (r : ClaimedResult)
    (fsW fsE : FS) (elapsed_ms : Int) : VOutcome :=
  { verifierVerifyCore cfg task r fsW fsE with duration_ms := elapsed_ms }

/-! ## Stage-gate file checks (stage_gate.py) -/

/-- VerificationStageGate._check_files_exist. -/
def gateMissingFiles (changes : List Change) (fsW : FS) : List String :=
  changes.filterMap (fun c =>
    let fp := c.pathD
    if strIsEmpty fp || c.actionD = "deleted" then none
    else if (fsW fp).isNone then some fp else none)

/-- VerificationStageGate._check_files_modified. -/
def gateNotModified (changes : List Change) (fsW : FS) (startedAt : Int) : List String :=
  changes.filterMap (fun c =>
    let fp := c.pathD
    if strIsEmpty fp || c.actionD = "deleted" then none
    else match fsW fp with
      | none => none
      | some fi => if fi.mtime < startedAt then some fp else none)

/-! ## Orchestrator core (orchestrator.py)

The per-task execution loop is embedded as a function driven by one adapter
event per iteration; timestamps come from the explicit now parameter (the
datetime.now readings), and the filesystem roots are the fsW (configured
workspace) and fsE (WORKSPACE_PATH environment) maps as for the verifier. -/

/-- The fields of OrchestratorConfig that the embedded control flow reads.
The retry delay and backoff multiplier only determine the sleep length and
the payload of the retry event, not any task-state transition. -/
structure OrchestratorConfig where
  verification_required : Bool := true
  auto_retry_on_verification_failure : Bool := true
  enable_preflight_checks : Bool := true
  enable_postflight_validation : Bool := true
  enable_memory_integration : Bool := true
  enable_oasis_events : Bool := true
deriving Repr

/-- The value attribute of a TaskDomain member. -/
def TaskDomain.value : TaskDomain → String
  | .frontend => "frontend"
  | .backend => "backend"
  | .memory => "memory"
  | .mixed => "mixed"

/-- VerificationOutcome as orchestrator.py builds it. -/
structure OOutcome where
  result : VerificationResult
  reason : String := ""
  details : ODetails := {}
deriving DecidableEq, Repr

/-- VitanaOrchestrator._emit_event: handler calls and logging aside, the
observable task mutation is _emit_oasis_event appending the
orchestrator-topic event name (dots replaced by underscores) when OASIS
events are enabled. -/
def emitEvent (cfg : OrchestratorConfig) (name : String) (t : TaskState) : TaskState :=
  if cfg.enable_oasis_events then
    { t with oasis_events := t.oasis_events ++
        ["vtid.stage.orchestrator." ++ strReplace name "." "_"] }
  else t

/-- The f-string rendering of a nonempty Python set of plain strings (element
order is hash-dependent in Python; first-occurrence order is used here and
only membership and emptiness are relied upon). -/
def pySetRepr (xs : List String) : String :=
  "\x7b" ++ strIntercalate ", " (xs.map (fun s => "'" ++ s ++ "'")) ++ "\x7d"

/-- VitanaOrchestrator._get_domain_validators: unlike the module-level
get_validators_for_domain, this dictionary has no entry for mixed, so a
mixed task runs no validators in this path. -/
def orchValidatorsForDomain : TaskDomain → List VKind
  | .frontend => [.frontend]
  | .backend => [.backend]
  | .memory => [.memory]
  | .mixed => []

/-- VitanaOrchestrator._verify_completion: marks the task verifying, bumps
the attempt counter, then runs its own check sequence — empty change list on
a non-memory domain, claimed-file existence (deleted entries are not
exempted here), domain validators with short-circuit on the first failure,
expected artifacts, and the always-passing test stub.  Only the all-passed
branch records the task's verification_result. -/
def verifyCompletionO (cfg : OrchestratorConfig) (task : TaskState) (r : ClaimedResult)
    (fsW fsE : FS) (now : Int) : TaskState × OOutcome :=
  let t0 := { task with
    status := .verifying
    verification_attempts := task.verification_attempts + 1
    last_verification_at := some now }
  let t0 := emitEvent cfg "task.verifying" t0
  let changes := r.changes
  if changes.isEmpty && task.domain ≠ .memory then
    (t0, { result := .Failed
           reason := "No changes were made but task claimed completion"
           details := { check_failed := some "changes_exist" } })
  else
    let files_missing := changes.filterMap (fun c =>
      match c.file_path with
      | none => none
      | some fp =>
        if strIsEmpty fp then none
        else if (fsW fp).isNone then some fp else none)
    if !files_missing.isEmpty then
      (t0, { result := .Failed
             reason := "Claimed files do not exist: " ++ pyStrList files_missing
             details := { missing_files := files_missing } })
    else
      let firstFail := (orchValidatorsForDomain task.domain).findSome? (fun k =>
        let v := validatorResult k changes fsE
        if !v.passed then some (k, v) else none)
      match firstFail with
      | some (k, v) =>
        (t0, { result := .Failed
               reason := v.reason
               details := { validator := some k.vname, validation_details := some v.details } })
      | none =>
        let spec_artifacts := task.metadata.expected_artifacts
        let missing := pySetDiff spec_artifacts r.artifacts
        if !spec_artifacts.isEmpty && !missing.isEmpty then
          (t0, { result := .Partial
                 reason := "Missing expected artifacts: " ++ pySetRepr missing
                 details := { missing_artifacts := missing } })
        else
          let okOutcome : OOutcome :=
            { result := .Passed, reason := "All verification checks passed" }
          ({ t0 with
              verification_result := some .Passed
              verification_details := okOutcome.details },
           okOutcome)

/-- VitanaOrchestrator._schedule_retry: increment the counter, push the
reason; past the retry limit the task fails terminally, otherwise it parks
in retry_pending and, after the backoff sleep, returns to pending. -/
def scheduleRetry (cfg : OrchestratorConfig) (task : TaskState) (reason : String)
    (now : Int) : TaskState :=
  let t := { task with
    retry_count := task.retry_count + 1
    retry_reasons := task.retry_reasons ++ [reason] }
  if t.retry_count > t.max_retries then
    let t := { t with
      status := .failed
      error := some ("Max retries exceeded. Last reason: " ++ reason)
      completed_at := some now }
    emitEvent cfg "task.failed" t
  else
    let t := { t with status := .retryPending }
    let t := emitEvent cfg "task.retry_scheduled" t
    { t with status := .pending }

/-- VitanaOrchestrator._handle_verification_failure: record the failed
verification; when auto-retry is on and the task can still retry, push the
prefixed reason and delegate to _schedule_retry (which pushes the bare reason
again), otherwise fail terminally. -/
def handleVerificationFailure (cfg : OrchestratorConfig) (task : TaskState)
    (outcome : OOutcome) (now : Int) : TaskState :=
  let t := { task with
    status := .verificationFailed
    verification_result := some .Failed
    verification_details := outcome.details }
  let t := emitEvent cfg "task.verification_failed" t
  if cfg.auto_retry_on_verification_failure && t.canRetry then
    let t := { t with retry_reasons := t.retry_reasons ++
      ["Verification failed: " ++ outcome.reason] }
    scheduleRetry cfg t outcome.reason now
  else
    let t := { t with
      status := .failed
      error := some ("Verification failed: " ++ outcome.reason)
      completed_at := some now }
    emitEvent cfg "task.failed" t

/-- VitanaOrchestrator._handle_partial_completion: with remaining work in the
outcome details the task retries, otherwise it fails for manual review. -/
def handlePartialCompletion (cfg : OrchestratorConfig) (task : TaskState)
    (outcome : OOutcome) (now : Int) : TaskState :=
  let remaining := outcome.details.remaining_work
  if !remaining.isEmpty then
    let t := { task with metadata := { task.metadata with remaining_work := remaining } }
    scheduleRetry cfg t "Partial completion - continuing" now
  else
    let t := { task with
      status := .failed
      error := some "Partial completion but cannot determine remaining work"
      completed_at := some now }
    emitEvent cfg "task.needs_review" t

/-- The outcome of one pass through dispatch and wait-for-completion, as the
execution loop observes it: a completion claim, a timeout of the bounded
wait, a TaskDispatchError from adapter lookup, or another exception escaping
steps 1 or 2. -/
inductive AdapterEvent
  | claim (r : ClaimedResult)
  | timeoutErr
  | dispatchErr (msg : String)
  | unexpectedErr (msg : String)
deriving DecidableEq, Repr

/-- VitanaOrchestrator._dispatch_task.  For a non-mixed domain: routing,
dispatched (agent assigned), then in_progress with the start timestamp.  A
mixed task instead fans out to sub-tasks — each a run of this same loop on
its own record — and extends the parent's changes_made with theirs, entering
here as the childChanges parameter; the parent keeps status routing. -/
def dispatchTask (cfg : OrchestratorConfig) (task : TaskState)
    (childChanges : List Change) (now : Int) : TaskState :=
  let t := { task with status := .routing }
  let t := emitEvent cfg "task.routing" t
  if task.domain = .mixed then
    { t with changes_made := t.changes_made ++ childChanges }
  else
    let t := { t with
      status := .dispatched
      assigned_agent := some ("worker-" ++ task.domain.value)
      assigned_at := some now }
    let t := emitEvent cfg "task.dispatched" t
    let t := { t with status := .inProgress, started_at := some now }
    emitEvent cfg "task.started" t

/-- Step 3 of a loop iteration once a claim arrived: verify when required and
act on the outcome; otherwise mark completed without verification. -/
def processClaim (cfg : OrchestratorConfig) (task : TaskState) (r : ClaimedResult)
    (fsW fsE : FS) (now : Int) : TaskState :=
  if cfg.verification_required then
    let p := verifyCompletionO cfg task r fsW fsE now
    match p.2.result with
    | .Passed =>
      let t := { p.1 with status := .completed, result := some r, completed_at := some now }
      emitEvent cfg "task.completed" t
    | .Failed => handleVerificationFailure cfg p.1 p.2 now
    | .Partial => handlePartialCompletion cfg p.1 p.2 now
    | .NeedsRetry => scheduleRetry cfg p.1 p.2.reason now
    | .CannotVerify => scheduleRetry cfg p.1 "Verification inconclusive" now
  else
    let t := { task with status := .completed, result := some r, completed_at := some now }
    emitEvent cfg "task.completed" t

/-- The exceptions that escape _execute_with_verification_loop. -/
inductive OrchErr
  | maxRetriesExceeded
  | timedOut
deriving DecidableEq, Repr

/-- The exception text the execute_task handler records. -/
def OrchErr.message (taskId : String) (maxRetries : Nat) : OrchErr → String
  | .maxRetriesExceeded =>
    "Task " ++ taskId ++ " exceeded max retries (" ++ toString maxRetries ++ ")"
  | .timedOut => "Task " ++ taskId ++ " timed out"

/-- VitanaOrchestrator._execute_with_verification_loop: while the task is
non-terminal, check the retry limit, dispatch, wait, and act on the adapter
event.  A timeout marks the task timed out and raises; a dispatch error or an
unexpected exception schedules a retry.  The event list supplies one adapter
outcome per iteration (an exhausted list stops the run: the adapter never
responded, which the bounded model leaves unobserved). -/
def execLoop (cfg : OrchestratorConfig) (fsW fsE : FS) (childChanges : List Change)
    (now : Int) :
    TaskState → List AdapterEvent → TaskState × Option OrchErr
  | task, events =>
    if task.isTerminal then (task, none)
    else if task.retry_count > task.max_retries then (task, some .maxRetriesExceeded)
    else match events with
      | [] => (task, none)
      | .claim r :: rest =>
        let t := dispatchTask cfg task childChanges now
        execLoop cfg fsW fsE childChanges now (processClaim cfg t r fsW fsE now) rest
      | .timeoutErr :: _ =>
        let t := dispatchTask cfg task childChanges now
        let t := { t with
          status := .timeout
          error := some "Task execution timed out"
          completed_at := some now }
        (emitEvent cfg "task.timeout" t, some .timedOut)
      | .dispatchErr msg :: rest =>
        let t := emitEvent cfg "task.routing" { task with status := .routing }
        execLoop cfg fsW fsE childChanges now
          (scheduleRetry cfg t ("Dispatch error: " ++ msg) now) rest
      | .unexpectedErr msg :: rest =>
        let t := dispatchTask cfg task childChanges now
        let t := { t with error_history := t.error_history ++ [msg] }
        execLoop cfg fsW fsE childChanges now
          (scheduleRetry cfg t ("Unexpected error: " ++ msg) now) rest

/-- The domain-specific preflight checks of _run_preflight. -/
def preflightChecks : TaskDomain → List String
  | .frontend => ["accessibility"]
  | .backend => ["security", "analyze_service"]
  | .memory => ["rls_policy", "migration_preview"]
  | .mixed => []

/-- VitanaOrchestrator._run_preflight: bracketing events, the memory
duplicate probe (a stub reporting no duplicate, so no metadata write), and a
passing stub stored per check under a preflight_ metadata key. -/
def runPreflight (cfg : OrchestratorConfig) (task : TaskState) : TaskState :=
  let t := emitEvent cfg "task.preflight.start" task
  let t := { t with metadata := { t.metadata with
    hook_keys := t.metadata.hook_keys ++
      (preflightChecks task.domain).map (fun c => "preflight_" ++ c) } }
  emitEvent cfg "task.preflight.complete" t

/-- The domain-specific postflight checks of _run_postflight. -/
def postflightChecks : TaskDomain → List String
  | .frontend => ["accessibility"]
  | .backend => ["security"]
  | .memory => ["rls_policy"]
  | .mixed => []

/-- VitanaOrchestrator._run_postflight. -/
def runPostflight (cfg : OrchestratorConfig) (task : TaskState) : TaskState :=
  let t := emitEvent cfg "task.postflight.start" task
  let t := { t with metadata := { t.metadata with
    hook_keys := t.metadata.hook_keys ++
      (postflightChecks task.domain).map (fun c => "postflight_" ++ c) } }
  emitEvent cfg "task.postflight.complete" t

/-- VitanaOrchestrator.execute_task on a registered task: preflight when
enabled, the verification loop, postflight when enabled.  Any exception
escaping the loop reaches the top-level handler, which marks the task
failed with the exception text, appends to the error history, emits
task.failed and re-raises — the Bool of the returned pair records whether
execute_task raised. -/
def executeTask (cfg : OrchestratorConfig) (task : TaskState) (events : List AdapterEvent)
    (fsW fsE : FS) (childChanges : List Change) (now : Int) : TaskState × Bool :=
  let t := if cfg.enable_preflight_checks then runPreflight cfg task else task
  let p := execLoop cfg fsW fsE childChanges now t events
  match p.2 with
  | none =>
    ((if cfg.enable_postflight_validation then runPostflight cfg p.1 else p.1), false)
  | some e =>
    let msg := e.message task.task_id task.max_retries
    let t := { p.1 with
      status := .failed
      error := some msg
      error_history := p.1.error_history ++ [msg]
      completed_at := some now }
    (emitEvent cfg "task.failed" t, true)

/-! ## Support lemmas

Field-preservation facts about the embedded orchestrator operations, used by
the loop invariants below. -/

@[simp] theorem emitEvent_status (cfg : OrchestratorConfig) (n : String) (t : TaskState) :
    (emitEvent cfg n t).status = t.status := by
  unfold emitEvent; split <;> rfl

@[simp] theorem emitEvent_verification_result (cfg : OrchestratorConfig) (n : String)
    (t : TaskState) : (emitEvent cfg n t).verification_result = t.verification_result := by
  unfold emitEvent; split <;> rfl

@[simp] theorem emitEvent_retry_count (cfg : OrchestratorConfig) (n : String) (t : TaskState) :
    (emitEvent cfg n t).retry_count = t.retry_count := by
  unfold emitEvent; split <;> rfl

@[simp] theorem emitEvent_retry_reasons (cfg : OrchestratorConfig) (n : String) (t : TaskState) :
    (emitEvent cfg n t).retry_reasons = t.retry_reasons := by
  unfold emitEvent; split <;> rfl

@[simp] theorem emitEvent_max_retries (cfg : OrchestratorConfig) (n : String) (t : TaskState) :
    (emitEvent cfg n t).max_retries = t.max_retries := by
  unfold emitEvent; split <;> rfl

@[simp] theorem runPreflight_status (cfg : OrchestratorConfig) (t : TaskState) :
    (runPreflight cfg t).status = t.status := by
  unfold runPreflight; simp

@[simp] theorem runPreflight_retry_count (cfg : OrchestratorConfig) (t : TaskState) :
    (runPreflight cfg t).retry_count = t.retry_count := by
  unfold runPreflight; simp

@[simp] theorem runPreflight_retry_reasons (cfg : OrchestratorConfig) (t : TaskState) :
    (runPreflight cfg t).retry_reasons = t.retry_reasons := by
  unfold runPreflight; simp

@[simp] theorem runPreflight_max_retries (cfg : OrchestratorConfig) (t : TaskState) :
    (runPreflight cfg t).max_retries = t.max_retries := by
  unfold runPreflight; simp

@[simp] theorem runPreflight_verification_result (cfg : OrchestratorConfig) (t : TaskState) :
    (runPreflight cfg t).verification_result = t.verification_result := by
  unfold runPreflight; simp

@[simp] theorem runPostflight_status (cfg : OrchestratorConfig) (t : TaskState) :
    (runPostflight cfg t).status = t.status := by
  unfold runPostflight; simp

@[simp] theorem runPostflight_retry_count (cfg : OrchestratorConfig) (t : TaskState) :
    (runPostflight cfg t).retry_count = t.retry_count := by
  unfold runPostflight; simp

@[simp] theorem runPostflight_retry_reasons (cfg : OrchestratorConfig) (t : TaskState) :
    (runPostflight cfg t).retry_reasons = t.retry_reasons := by
  unfold runPostflight; simp

@[simp] theorem runPostflight_verification_result (cfg : OrchestratorConfig) (t : TaskState) :
    (runPostflight cfg t).verification_result = t.verification_result := by
  unfold runPostflight; simp

@[simp] theorem dispatchTask_status_ne_completed (cfg : OrchestratorConfig) (t : TaskState)
    (cc : List Change) (now : Int) :
    (dispatchTask cfg t cc now).status ≠ TaskStatus.completed := by
  unfold dispatchTask; dsimp only; split <;> simp

@[simp] theorem dispatchTask_retry_count (cfg : OrchestratorConfig) (t : TaskState)
    (cc : List Change) (now : Int) :
    (dispatchTask cfg t cc now).retry_count = t.retry_count := by
  unfold dispatchTask; dsimp only; split <;> simp

@[simp] theorem dispatchTask_retry_reasons (cfg : OrchestratorConfig) (t : TaskState)
    (cc : List Change) (now : Int) :
    (dispatchTask cfg t cc now).retry_reasons = t.retry_reasons := by
  unfold dispatchTask; dsimp only; split <;> simp

@[simp] theorem dispatchTask_max_retries (cfg : OrchestratorConfig) (t : TaskState)
    (cc : List Change) (now : Int) :
    (dispatchTask cfg t cc now).max_retries = t.max_retries := by
  unfold dispatchTask; dsimp only; split <;> simp

theorem scheduleRetry_retry_count (cfg : OrchestratorConfig) (t : TaskState) (r : String)
    (now : Int) : (scheduleRetry cfg t r now).retry_count = t.retry_count + 1 := by
  unfold scheduleRetry; dsimp only; split <;> simp

theorem scheduleRetry_retry_reasons (cfg : OrchestratorConfig) (t : TaskState) (r : String)
    (now : Int) : (scheduleRetry cfg t r now).retry_reasons = t.retry_reasons ++ [r] := by
  unfold scheduleRetry; dsimp only; split <;> simp

theorem scheduleRetry_status (cfg : OrchestratorConfig) (t : TaskState) (r : String)
    (now : Int) : (scheduleRetry cfg t r now).status = TaskStatus.failed ∨
      (scheduleRetry cfg t r now).status = TaskStatus.pending := by
  unfold scheduleRetry; dsimp only; split
  · left; simp
  · right; simp

theorem scheduleRetry_status_ne_completed (cfg : OrchestratorConfig) (t : TaskState)
    (r : String) (now : Int) : (scheduleRetry cfg t r now).status ≠ TaskStatus.completed := by
  rcases scheduleRetry_status cfg t r now with h | h <;> simp [h]

theorem scheduleRetry_verification_result (cfg : OrchestratorConfig) (t : TaskState)
    (r : String) (now : Int) :
    (scheduleRetry cfg t r now).verification_result = t.verification_result := by
  unfold scheduleRetry; dsimp only; split <;> simp

/-- Preservation of the retry-accounting relations by one embedded operation:
the retry counter never decreases, and whenever the reason list was at least
as long as the counter before, it still is after. -/
def RetryOk (s s' : TaskState) : Prop :=
  s'.retry_count ≥ s.retry_count ∧
  (s.retry_reasons.length ≥ s.retry_count → s'.retry_reasons.length ≥ s'.retry_count)

theorem retryOk_refl (s : TaskState) : RetryOk s s := ⟨le_refl _, fun h => h⟩

theorem retryOk_trans {a b c : TaskState} (h1 : RetryOk a b) (h2 : RetryOk b c) :
    RetryOk a c :=
  ⟨le_trans h1.1 h2.1, fun h => h2.2 (h1.2 h)⟩

theorem retryOk_of_eq {a b : TaskState} (hc : b.retry_count = a.retry_count)
    (hr : b.retry_reasons = a.retry_reasons) : RetryOk a b := by
  constructor
  · omega
  · intro h; rw [hc, hr]; exact h

theorem scheduleRetry_retryOk (cfg : OrchestratorConfig) (t : TaskState) (r : String)
    (now : Int) : RetryOk t (scheduleRetry cfg t r now) := by
  constructor
  · rw [scheduleRetry_retry_count]; omega
  · intro h
    rw [scheduleRetry_retry_count, scheduleRetry_retry_reasons, List.length_append]
    simp; omega

theorem hvf_retryOk (cfg : OrchestratorConfig) (t : TaskState) (o : OOutcome) (now : Int) :
    RetryOk t (handleVerificationFailure cfg t o now) := by
  unfold handleVerificationFailure; dsimp only
  split
  · constructor
    · rw [scheduleRetry_retry_count]
      try simp
      try omega
    · intro h
      rw [scheduleRetry_retry_count, scheduleRetry_retry_reasons]
      try simp
      omega
  · exact retryOk_of_eq (by simp) (by simp)

theorem hvf_status_ne_completed (cfg : OrchestratorConfig) (t : TaskState) (o : OOutcome)
    (now : Int) : (handleVerificationFailure cfg t o now).status ≠ TaskStatus.completed := by
  unfold handleVerificationFailure; dsimp only
  split
  · exact scheduleRetry_status_ne_completed cfg _ _ now
  · simp

theorem hpc_retryOk (cfg : OrchestratorConfig) (t : TaskState) (o : OOutcome) (now : Int) :
    RetryOk t (handlePartialCompletion cfg t o now) := by
  unfold handlePartialCompletion; dsimp only
  split
  · constructor
    · rw [scheduleRetry_retry_count]
      try simp
      try omega
    · intro h
      rw [scheduleRetry_retry_count, scheduleRetry_retry_reasons]
      try simp
      omega
  · exact retryOk_of_eq (by simp) (by simp)

theorem hpc_status_ne_completed (cfg : OrchestratorConfig) (t : TaskState) (o : OOutcome)
    (now : Int) : (handlePartialCompletion cfg t o now).status ≠ TaskStatus.completed := by
  unfold handlePartialCompletion; dsimp only
  split
  · exact scheduleRetry_status_ne_completed cfg _ _ now
  · simp

theorem verifyCompletionO_fst_retry (cfg : OrchestratorConfig) (task : TaskState)
    (r : ClaimedResult) (fsW fsE : FS) (now : Int) :
    (verifyCompletionO cfg task r fsW fsE now).1.retry_count = task.retry_count ∧
    (verifyCompletionO cfg task r fsW fsE now).1.retry_reasons = task.retry_reasons ∧
    (verifyCompletionO cfg task r fsW fsE now).1.max_retries = task.max_retries := by
  unfold verifyCompletionO; dsimp only
  repeat' split
  all_goals simp

theorem verifyCompletionO_passed (cfg : OrchestratorConfig) (task : TaskState)
    (r : ClaimedResult) (fsW fsE : FS) (now : Int) :
    (verifyCompletionO cfg task r fsW fsE now).2.result = .Passed →
    (verifyCompletionO cfg task r fsW fsE now).1.verification_result = some .Passed := by
  unfold verifyCompletionO; dsimp only
  repeat' split
  all_goals simp

theorem processClaim_retryOk (cfg : OrchestratorConfig) (task : TaskState) (r : ClaimedResult)
    (fsW fsE : FS) (now : Int) : RetryOk task (processClaim cfg task r fsW fsE now) := by
  have hf := verifyCompletionO_fst_retry cfg task r fsW fsE now
  unfold processClaim; dsimp only
  split
  · split
    · exact retryOk_of_eq (by simp [hf.1]) (by simp [hf.2.1])
    · exact retryOk_trans (retryOk_of_eq hf.1 hf.2.1)
        (hvf_retryOk cfg _ _ now)
    · exact retryOk_trans (retryOk_of_eq hf.1 hf.2.1)
        (hpc_retryOk cfg _ _ now)
    · exact retryOk_trans (retryOk_of_eq hf.1 hf.2.1)
        (scheduleRetry_retryOk cfg _ _ now)
    · exact retryOk_trans (retryOk_of_eq hf.1 hf.2.1)
        (scheduleRetry_retryOk cfg _ _ now)
  · exact retryOk_of_eq (by simp) (by simp)

theorem processClaim_c1 (cfg : OrchestratorConfig) (task : TaskState) (r : ClaimedResult)
    (fsW fsE : FS) (now : Int) (hv : cfg.verification_required = true) :
    (processClaim cfg task r fsW fsE now).status = TaskStatus.completed →
    (processClaim cfg task r fsW fsE now).verification_result = some .Passed := by
  unfold processClaim; dsimp only
  split
  · split <;> rename_i heq
    · intro _
      simp only [emitEvent_verification_result]
      exact verifyCompletionO_passed cfg task r fsW fsE now heq
    · intro hs; exact absurd hs (hvf_status_ne_completed cfg _ _ now)
    · intro hs; exact absurd hs (hpc_status_ne_completed cfg _ _ now)
    · intro hs; exact absurd hs (scheduleRetry_status_ne_completed cfg _ _ now)
    · intro hs; exact absurd hs (scheduleRetry_status_ne_completed cfg _ _ now)
  · simp_all

theorem execLoop_retryOk (cfg : OrchestratorConfig) (fsW fsE : FS) (cc : List Change)
    (now : Int) : ∀ (events : List AdapterEvent) (task : TaskState),
    RetryOk task (execLoop cfg fsW fsE cc now task events).1 := by
  intro events
  induction events with
  | nil =>
    intro task
    rw [execLoop.eq_def]
    dsimp only
    split
    · exact retryOk_refl _
    · split
      · exact retryOk_refl _
      · exact retryOk_refl _
  | cons e rest ih =>
    intro task
    rw [execLoop.eq_def]
    cases e with
    | claim r =>
      dsimp only
      split
      · exact retryOk_refl _
      · split
        · exact retryOk_refl _
        · exact retryOk_trans
            (retryOk_trans (retryOk_of_eq (by simp) (by simp))
              (processClaim_retryOk cfg _ r fsW fsE now))
            (ih _)
    | timeoutErr =>
      dsimp only
      split
      · exact retryOk_refl _
      · split
        · exact retryOk_refl _
        · exact retryOk_of_eq (by simp) (by simp)
    | dispatchErr msg =>
      dsimp only
      split
      · exact retryOk_refl _
      · split
        · exact retryOk_refl _
        · exact retryOk_trans
            (retryOk_trans (retryOk_of_eq (by simp) (by simp))
              (scheduleRetry_retryOk cfg _ _ now))
            (ih _)
    | unexpectedErr msg =>
      dsimp only
      split
      · exact retryOk_refl _
      · split
        · exact retryOk_refl _
        · exact retryOk_trans
            (retryOk_trans (retryOk_of_eq (by simp) (by simp))
              (scheduleRetry_retryOk cfg _ _ now))
            (ih _)

/-- The invariant of the completion guarantee: a completed status is always
accompanied by a recorded passed verification. -/
def C1Inv (t : TaskState) : Prop :=
  t.status = TaskStatus.completed → t.verification_result = some .Passed

theorem execLoop_c1Inv (cfg : OrchestratorConfig) (fsW fsE : FS) (cc : List Change)
    (now : Int) (hv : cfg.verification_required = true) :
    ∀ (events : List AdapterEvent) (task : TaskState), C1Inv task →
    C1Inv (execLoop cfg fsW fsE cc now task events).1 := by
  intro events
  induction events with
  | nil =>
    intro task h
    rw [execLoop.eq_def]
    dsimp only
    split
    · exact h
    · split
      · exact h
      · exact h
  | cons e rest ih =>
    intro task h
    rw [execLoop.eq_def]
    cases e with
    | claim r =>
      dsimp only
      split
      · exact h
      · split
        · exact h
        · exact ih _ (processClaim_c1 cfg _ r fsW fsE now hv)
    | timeoutErr =>
      dsimp only
      split
      · exact h
      · split
        · exact h
        · intro hs
          simp at hs
    | dispatchErr msg =>
      dsimp only
      split
      · exact h
      · split
        · exact h
        · refine ih _ ?_
          intro hs
          exact absurd hs (scheduleRetry_status_ne_completed cfg _ _ now)
    | unexpectedErr msg =>
      dsimp only
      split
      · exact h
      · split
        · exact h
        · refine ih _ ?_
          intro hs
          exact absurd hs (scheduleRetry_status_ne_completed cfg _ _ now)

/-! ## Claims -/

/-- C1, counterexample: with verification_required set to false the execution
loop marks the task completed while its recorded verification result stays
unset (None, not passed), so the claimed invariant does not hold regardless
of configuration. -/
theorem c1_counterexample :
    (execLoop { verification_required := false } (fun _ => none) (fun _ => none) [] 0
      { domain := .backend } [AdapterEvent.claim {}]).1.status = TaskStatus.completed ∧
    (execLoop { verification_required := false } (fun _ => none) (fun _ => none) [] 0
      { domain := .backend } [AdapterEvent.claim {}]).1.verification_result = none := by
  constructor <;> rfl

/-- C1, amended: every task state produced by the execution loop with status
completed has recorded verification result passed, provided the
configuration has verification_required true and the starting state already
satisfies the invariant; with verification_required false a completed task's
verification result remains unset. -/
theorem c1_completed_has_passed_verification
    (cfg : OrchestratorConfig) (fsW fsE : FS) (cc : List Change) (now : Int)
    (task : TaskState) (events : List AdapterEvent)
    (hv : cfg.verification_required = true)
    (h0 : task.status = TaskStatus.completed → task.verification_result = some .Passed) :
    (execLoop cfg fsW fsE cc now task events).1.status = TaskStatus.completed →
    (execLoop cfg fsW fsE cc now task events).1.verification_result = some .Passed :=
  execLoop_c1Inv cfg fsW fsE cc now hv events task h0

/-- C1, witness: a concrete verified run reaches completed with a recorded
passed verification. -/
theorem c1_witness :
    (execLoop {} (fun p => if p = "f.ts" then some {} else none)
      (fun p => if p = "f.ts" then some {} else none) [] 0 { domain := .backend }
      [AdapterEvent.claim { changes := [{ file_path := some "f.ts" }] }]).1.verification_result =
      some .Passed :=
  c1_completed_has_passed_verification {} (fun p => if p = "f.ts" then some {} else none)
    (fun p => if p = "f.ts" then some {} else none) [] 0 { domain := .backend }
    [AdapterEvent.claim { changes := [{ file_path := some "f.ts" }] }]
    rfl (by decide) (by rfl)

/-- C2, counterexample: CompletionVerifier.verify on a backend task with an
empty change list returns a passed outcome (all stages pass vacuously), not
an immediate failed; the empty-change early exit is not implemented in
CompletionVerifier.verify. -/
theorem c2_counterexample :
    (verifierVerify {} { domain := .backend } {} (fun _ => none) (fun _ => none) 0).result =
      VerificationResult.Passed ∧
    (verifierVerify {} { domain := .backend } {} (fun _ => none) (fun _ => none) 0).reason =
      "All verification checks passed" := by
  constructor <;> rfl

/-- C2, amended: the empty-change-list early exit lives in the orchestrator's
own _verify_completion, with reason text "No changes were made but task
claimed completion"; there, a non-memory task with an empty change list fails
immediately, and a memory task with an empty change list never fails
(verification may still pass or report missing artifacts as partial). -/
theorem c2_empty_changes_orchestrator (cfg : OrchestratorConfig) (task : TaskState)
    (r : ClaimedResult) (fsW fsE : FS) (now : Int) (hc : r.changes = []) :
    (task.domain ≠ .memory →
      (verifyCompletionO cfg task r fsW fsE now).2 =
        { result := .Failed
          reason := "No changes were made but task claimed completion"
          details := { check_failed := some "changes_exist" } }) ∧
    (task.domain = .memory →
      (verifyCompletionO cfg task r fsW fsE now).2.result ≠ .Failed) := by
  constructor
  · intro hd
    simp [verifyCompletionO, hc, hd]
  · intro hd
    simp only [verifyCompletionO, hc, hd]
    simp [orchValidatorsForDomain, validatorResult, memoryIssues, assembleValidationResult]
    split <;> simp

/-- C2, witness: concrete backend task with an empty claim fails immediately
in the orchestrator's verification with the source's reason text. -/
theorem c2_witness :
    (verifyCompletionO {} { domain := .backend } {} (fun _ => none) (fun _ => none) 0).2 =
      { result := .Failed
        reason := "No changes were made but task claimed completion"
        details := { check_failed := some "changes_exist" } } :=
  (c2_empty_changes_orchestrator {} { domain := .backend } {} (fun _ => none) (fun _ => none)
    0 rfl).1 (by decide)

/-- C3, counterexample: one verification-failure retry pushes two reason
strings (the prefixed one from the failure handler and the bare one from
_schedule_retry) for a single counter increment, so after this loop step
len(retry_reasons) is 2 while retry_count is 1. -/
theorem c3_counterexample :
    (execLoop {} (fun _ => none) (fun _ => none) [] 0 { domain := .backend }
      [AdapterEvent.claim { changes := [{ file_path := some "missing.txt" }] }]).1.retry_count
      = 1 ∧
    (execLoop {} (fun _ => none) (fun _ => none) [] 0 { domain := .backend }
      [AdapterEvent.claim { changes := [{ file_path := some "missing.txt" }] }]).1.retry_reasons.length
      = 2 := by
  constructor <;> rfl

/-- C3, amended: across the loop the retry counter is monotonically
non-decreasing, and the reason list is at least as long as the counter
(every _schedule_retry pushes exactly one reason per increment; the
verification-failure handler pushes one additional reason, so equality can
fail in that direction only). -/
theorem c3_retry_accounting (cfg : OrchestratorConfig) (fsW fsE : FS) (cc : List Change)
    (now : Int) (task : TaskState) (events : List AdapterEvent)
    (h : task.retry_reasons.length ≥ task.retry_count) :
    (execLoop cfg fsW fsE cc now task events).1.retry_count ≥ task.retry_count ∧
    (execLoop cfg fsW fsE cc now task events).1.retry_reasons.length ≥
      (execLoop cfg fsW fsE cc now task events).1.retry_count :=
  ⟨(execLoop_retryOk cfg fsW fsE cc now events task).1,
   (execLoop_retryOk cfg fsW fsE cc now events task).2 h⟩

/-- C3, witness: the accounting bounds hold on a concrete retrying run. -/
theorem c3_witness :
    (execLoop {} (fun _ => none) (fun _ => none) [] 0 { domain := .memory }
      [AdapterEvent.dispatchErr "boom"]).1.retry_count ≥ 0 ∧
    (execLoop {} (fun _ => none) (fun _ => none) [] 0 { domain := .memory }
      [AdapterEvent.dispatchErr "boom"]).1.retry_reasons.length ≥
      (execLoop {} (fun _ => none) (fun _ => none) [] 0 { domain := .memory }
      [AdapterEvent.dispatchErr "boom"]).1.retry_count :=
  c3_retry_accounting {} (fun _ => none) (fun _ => none) [] 0 { domain := .memory }
    [AdapterEvent.dispatchErr "boom"] (by decide)

/-- C4, counterexample: a task whose wait times out does not end in status
timeout after execute_task raises — the top-level exception handler of
execute_task overwrites the status to failed. -/
theorem c4_counterexample :
    (executeTask {} { domain := .backend, task_id := "T" } [AdapterEvent.timeoutErr]
      (fun _ => none) (fun _ => none) [] 0).1.status = TaskStatus.failed ∧
    (executeTask {} { domain := .backend, task_id := "T" } [AdapterEvent.timeoutErr]
      (fun _ => none) (fun _ => none) [] 0).1.status ≠ TaskStatus.timeout ∧
    (executeTask {} { domain := .backend, task_id := "T" } [AdapterEvent.timeoutErr]
      (fun _ => none) (fun _ => none) [] 0).2 = true := by
  refine ⟨rfl, by decide, rfl⟩

/-- C4, amended: on the first timeout the loop marks the task timed out with
no retry scheduled (counter and reasons untouched) and raises; execute_task's
top-level handler then overwrites the terminal status to failed and
re-raises, so the task's final status after execute_task is failed, not
timeout. -/
theorem c4_timeout_behavior (cfg : OrchestratorConfig) (task : TaskState)
    (fsW fsE : FS) (cc : List Change) (now : Int) (rest : List AdapterEvent)
    (h1 : task.isTerminal = false)
    (h2 : ¬ task.retry_count > task.max_retries) :
    (execLoop cfg fsW fsE cc now task (AdapterEvent.timeoutErr :: rest)).1.status =
      TaskStatus.timeout ∧
    (execLoop cfg fsW fsE cc now task (AdapterEvent.timeoutErr :: rest)).1.retry_count =
      task.retry_count ∧
    (execLoop cfg fsW fsE cc now task (AdapterEvent.timeoutErr :: rest)).1.retry_reasons =
      task.retry_reasons ∧
    (execLoop cfg fsW fsE cc now task (AdapterEvent.timeoutErr :: rest)).2 =
      some OrchErr.timedOut ∧
    (executeTask cfg task (AdapterEvent.timeoutErr :: rest) fsW fsE cc now).1.status =
      TaskStatus.failed ∧
    (executeTask cfg task (AdapterEvent.timeoutErr :: rest) fsW fsE cc now).2 = true := by
  have hloop : ∀ (u : TaskState), u.isTerminal = false →
      ¬ u.retry_count > u.max_retries →
      (execLoop cfg fsW fsE cc now u (AdapterEvent.timeoutErr :: rest)).1.status =
        TaskStatus.timeout ∧
      (execLoop cfg fsW fsE cc now u (AdapterEvent.timeoutErr :: rest)).1.retry_count =
        u.retry_count ∧
      (execLoop cfg fsW fsE cc now u (AdapterEvent.timeoutErr :: rest)).1.retry_reasons =
        u.retry_reasons ∧
      (execLoop cfg fsW fsE cc now u (AdapterEvent.timeoutErr :: rest)).2 =
        some OrchErr.timedOut := by
    intro u hu1 hu2
    rw [execLoop.eq_def]
    dsimp only
    rw [if_neg (by simp [hu1]), if_neg hu2]
    refine ⟨by simp, by simp, by simp, rfl⟩
  have hpre : (if cfg.enable_preflight_checks then runPreflight cfg task else task).isTerminal
      = false := by
    split <;> simp [TaskState.isTerminal] at h1 ⊢ <;> simpa using h1
  have hpre2 : ¬ (if cfg.enable_preflight_checks then runPreflight cfg task
      else task).retry_count >
      (if cfg.enable_preflight_checks then runPreflight cfg task else task).max_retries := by
    split <;> simpa using h2
  refine ⟨(hloop task h1 h2).1, (hloop task h1 h2).2.1, (hloop task h1 h2).2.2.1,
    (hloop task h1 h2).2.2.2, ?_, ?_⟩
  · unfold executeTask
    dsimp only
    rw [(hloop _ hpre hpre2).2.2.2]
    simp
  · unfold executeTask
    dsimp only
    rw [(hloop _ hpre hpre2).2.2.2]

/-- C4, witness: concrete timed-out run — the loop records timeout with no
retry, execute_task ends it as failed. -/
theorem c4_witness :
    (execLoop {} (fun _ => none) (fun _ => none) [] 0 { domain := .frontend }
      [AdapterEvent.timeoutErr]).1.status = TaskStatus.timeout ∧
    (execLoop {} (fun _ => none) (fun _ => none) [] 0 { domain := .frontend }
      [AdapterEvent.timeoutErr]).1.retry_count = 0 ∧
    (execLoop {} (fun _ => none) (fun _ => none) [] 0 { domain := .frontend }
      [AdapterEvent.timeoutErr]).1.retry_reasons = [] ∧
    (execLoop {} (fun _ => none) (fun _ => none) [] 0 { domain := .frontend }
      [AdapterEvent.timeoutErr]).2 = some OrchErr.timedOut ∧
    (executeTask {} { domain := .frontend } [AdapterEvent.timeoutErr]
      (fun _ => none) (fun _ => none) [] 0).1.status = TaskStatus.failed ∧
    (executeTask {} { domain := .frontend } [AdapterEvent.timeoutErr]
      (fun _ => none) (fun _ => none) [] 0).2 = true :=
  c4_timeout_behavior {} { domain := .frontend } (fun _ => none) (fun _ => none) [] 0 []
    (by decide) (by decide)

/-- C5, counterexample: eleven target paths under a single top-level
directory pass the forbidden-path check and stay within both budgets as the
claim counts them (11 files of at most 20; one top-level directory of at
most 10), yet the code rejects the task, because _check_scope counts
distinct parent directories, not top-level directories. -/
theorem c5_counterexample :
    (checkPaths ({} : SafetyChecker)
      ["a/d0/f", "a/d1/f", "a/d2/f", "a/d3/f", "a/d4/f", "a/d5/f", "a/d6/f", "a/d7/f",
       "a/d8/f", "a/d9/f", "a/d10/f"]).safe = true ∧
    specScopeRejects {}
      { target_paths := ["a/d0/f", "a/d1/f", "a/d2/f", "a/d3/f", "a/d4/f", "a/d5/f",
        "a/d6/f", "a/d7/f", "a/d8/f", "a/d9/f", "a/d10/f"] } = false ∧
    (checkTask {}
      { target_paths := ["a/d0/f", "a/d1/f", "a/d2/f", "a/d3/f", "a/d4/f", "a/d5/f",
        "a/d6/f", "a/d7/f", "a/d8/f", "a/d9/f", "a/d10/f"] }).safe = false := by
  refine ⟨by decide, by decide, by decide⟩

/-- C5, amended: given the forbidden-path check passed, the pre-flight check
rejects exactly when the number of target paths exceeds the file budget
(default 20) or the number of distinct parent directories — the slash-join of
all path components but the last, the component itself for single-component
paths — exceeds the directory budget (default 10). -/
theorem c5_scope_check (chk : SafetyChecker) (task : TaskConfig)
    (h : (checkPaths chk task.target_paths).safe = true) :
    ((checkTask chk task).safe = false ↔
      ((task.target_paths.length : Int) >
          (task.change_budget.getD {}).max_files.getD chk.max_files ∨
        ((scopeDirectories task.target_paths).length : Int) >
          (task.change_budget.getD {}).max_directories.getD chk.max_directories)) := by
  unfold checkTask checkScope
  dsimp only
  rw [h]
  by_cases h1 : (task.target_paths.length : Int) >
      (task.change_budget.getD {}).max_files.getD chk.max_files <;>
    by_cases h2 : ((scopeDirectories task.target_paths).length : Int) >
      (task.change_budget.getD {}).max_directories.getD chk.max_directories <;>
    simp [h1, h2]

/-- C5, witness: a task over its file budget is rejected. -/
theorem c5_witness :
    (checkTask ({} : SafetyChecker)
      { target_paths := ["a/x.txt", "b/y.txt"]
        change_budget := some { max_files := some 1 } }).safe = false :=
  (c5_scope_check {}
    { target_paths := ["a/x.txt", "b/y.txt"], change_budget := some { max_files := some 1 } }
    (by decide)).mpr (by decide)

/-- A path that ends in .sql is nonempty. -/
theorem strEndsWith_sql_ne_empty (s : String) (h : strEndsWith s ".sql" = true) :
    strIsEmpty s = false := by
  obtain ⟨data⟩ := s
  cases data with
  | nil => exact absurd h (by decide)
  | cons c cs => rfl

/-- C6: for every .sql file of the change set that exists under the
workspace, the MemoryValidator emits a critical issue for each CREATE TABLE
capture with no RLS policy in the same file, and any critical issue makes the
validator fail with retriable false. -/
theorem c6_memory_rls (changes : List Change) (fs : FS) :
    ((memoryIssues changes fs).any (fun i => i.severity = "critical") = true →
      (validatorResult .memory changes fs).passed = false ∧
      (validatorResult .memory changes fs).retriable = false) ∧
    (∀ c ∈ changes, ∀ fi, fs c.pathD = some fi → strEndsWith c.pathD ".sql" = true →
      ∀ t ∈ findCreateTables fi.content.toList, hasRlsPolicy fi.content t = false →
        Issue.mk c.pathD ("Table " ++ String.mk t ++ " created without RLS policy") "critical"
          ∈ memoryIssues changes fs) := by
  constructor
  · intro hcrit
    have hne : (memoryIssues changes fs).filter (fun i => i.severity = "critical") ≠ [] := by
      rcases List.any_eq_true.mp hcrit with ⟨i, hi, hsev⟩
      intro hnil
      have hf := List.filter_eq_nil_iff.mp hnil i hi
      exact hf hsev
    show (assembleValidationResult "Memory validation failed: " "Memory validation passed"
      false (memoryIssues changes fs)).passed = false ∧
      (assembleValidationResult "Memory validation failed: " "Memory validation passed"
      false (memoryIssues changes fs)).retriable = false
    unfold assembleValidationResult
    dsimp only
    rw [if_pos (by simp [List.isEmpty_iff, hne])]
    exact ⟨rfl, rfl⟩
  · intro c hc fi hfs hsql t ht hrls
    unfold memoryIssues
    rw [List.mem_flatten]
    refine ⟨_, List.mem_map_of_mem _ hc, ?_⟩
    dsimp only
    rw [if_neg (by simp [strEndsWith_sql_ne_empty _ hsql]), if_neg (by simp [hsql]), hfs]
    unfold memoryFileIssues
    dsimp only
    refine List.mem_append_left _ (List.mem_append_left _ ?_)
    rw [List.mem_flatten]
    refine ⟨_, List.mem_map_of_mem _ ht, ?_⟩
    simp [hrls]

/-- C6, witness: one SQL file creating a table with no RLS statement yields
the critical issue and a non-retriable failure. -/
theorem c6_witness :
    (validatorResult .memory [{ file_path := some "m.sql" }]
      (fun p => if p = "m.sql" then
        some { mtime := 0, content := "CREATE TABLE users (id int);" } else none)).passed
      = false ∧
    (validatorResult .memory [{ file_path := some "m.sql" }]
      (fun p => if p = "m.sql" then
        some { mtime := 0, content := "CREATE TABLE users (id int);" } else none)).retriable
      = false ∧
    Issue.mk "m.sql" "Table users created without RLS policy" "critical"
      ∈ memoryIssues [{ file_path := some "m.sql" }]
      (fun p => if p = "m.sql" then
        some { mtime := 0, content := "CREATE TABLE users (id int);" } else none) := by
  refine ⟨((c6_memory_rls _ _).1 (by decide)).1, ((c6_memory_rls _ _).1 (by decide)).2, ?_⟩
  exact (c6_memory_rls _ _).2 { file_path := some "m.sql" } (by decide)
    { mtime := 0, content := "CREATE TABLE users (id int);" } (by decide) (by decide)
    "users".toList (by decide) (by decide)

/-- C7: the files-modified stage passes vacuously without a start timestamp,
and with one it passes exactly when every existing, non-deleted claimed file
has mtime at least the start time (equality counts as modified). -/
theorem c7_files_modified (task : TaskState) (changes : List Change) (fsW : FS) :
    (task.started_at = none → (verifyFilesModified task changes fsW).passed = true) ∧
    (∀ st, task.started_at = some st →
      ((verifyFilesModified task changes fsW).passed = true ↔
        ∀ c ∈ changes, ∀ fp, c.file_path = some fp → strIsEmpty fp = false →
          c.actionD ≠ "deleted" → ∀ fi, fsW fp = some fi → st ≤ fi.mtime)) := by
  constructor
  · intro h
    simp [verifyFilesModified, h]
  · intro st h
    unfold verifyFilesModified
    rw [h]
    dsimp only
    by_cases hnm : notModifiedList changes fsW st = []
    · have hRHS : ∀ c ∈ changes, ∀ fp, c.file_path = some fp → strIsEmpty fp = false →
          c.actionD ≠ "deleted" → ∀ fi, fsW fp = some fi → st ≤ fi.mtime := by
        intro c hc fp hfp hne hdel fi hfi
        have h0 := List.filterMap_eq_nil_iff.mp hnm c hc
        rw [hfp] at h0
        dsimp only at h0
        rw [if_neg (by simp [hne, hdel]), hfi] at h0
        dsimp only at h0
        by_contra hlt
        rw [if_pos (by omega)] at h0
        exact absurd h0 (by simp)
      rw [hnm]
      exact iff_of_true rfl hRHS
    · have hcon : (!(notModifiedList changes fsW st).isEmpty) = true := by
        simp [List.isEmpty_iff, hnm]
      rw [if_pos hcon]
      refine iff_of_false (by simp) ?_
      intro hall
      obtain ⟨x, hx⟩ := List.exists_mem_of_ne_nil _ hnm
      obtain ⟨c, hc, hfc⟩ := List.mem_filterMap.mp hx
      cases hcp : c.file_path with
      | none => rw [hcp] at hfc; exact absurd hfc (by simp)
      | some fp =>
        rw [hcp] at hfc
        dsimp only at hfc
        split at hfc
        · exact absurd hfc (by simp)
        · rename_i hcond
          simp only [Bool.or_eq_true, decide_eq_true_eq, not_or, Bool.not_eq_true] at hcond
          cases hffs : fsW fp with
          | none => rw [hffs] at hfc; exact absurd hfc (by simp)
          | some fi =>
            rw [hffs] at hfc
            dsimp only at hfc
            split at hfc
            · rename_i hlt
              have hle := hall c hc fp hcp hcond.1 hcond.2 fi hffs
              omega
            · exact absurd hfc (by simp)

/-- C7, witness: an mtime exactly equal to started_at counts as modified, so
the stage passes. -/
theorem c7_witness :
    (verifyFilesModified { domain := .backend, started_at := some 100 }
      [{ file_path := some "f.ts" }]
      (fun p => if p = "f.ts" then some { mtime := 100 } else none)).passed = true := by
  refine ((c7_files_modified { domain := .backend, started_at := some 100 }
    [{ file_path := some "f.ts" }]
    (fun p => if p = "f.ts" then some { mtime := 100 } else none)).2 100 rfl).mpr ?_
  intro c hc fp hfp hne hdel fi hfi
  have hc0 : c = { file_path := some "f.ts" } := by simpa using hc
  subst hc0
  have hfp0 : fp = "f.ts" := by simpa using hfp.symm
  subst hfp0
  have hfi0 : fi = { mtime := 100 } := by simpa using hfi.symm
  subst hfi0
  decide

/-- The shared result assembly passes exactly when no critical issue is
present and always reports the full issue list in the details. -/
theorem assembleValidationResult_spec (fr pp : String) (rt : Bool) (issues : List Issue) :
    ((assembleValidationResult fr pp rt issues).passed = true ↔
      ∀ i ∈ issues, i.severity ≠ "critical") ∧
    (assembleValidationResult fr pp rt issues).details.issues = issues := by
  unfold assembleValidationResult
  dsimp only
  by_cases h : issues.filter (fun i => i.severity = "critical") = []
  · rw [if_neg (by simp [List.isEmpty_iff, h])]
    refine ⟨⟨fun _ i hi hs => ?_, fun _ => rfl⟩, ?_⟩
    · have hf := List.filter_eq_nil_iff.mp h i hi
      exact hf (by simpa using hs)
    · dsimp only
      split
      · rfl
      · rename_i hni
        simp only [Bool.not_eq_true] at hni
        simp [List.isEmpty_iff] at hni
        simp [hni]
  · rw [if_pos (by simp [List.isEmpty_iff, h])]
    refine ⟨⟨fun hp => absurd hp (by simp), fun hall => ?_⟩, rfl⟩
    exfalso
    obtain ⟨i, hi⟩ := List.exists_mem_of_ne_nil _ h
    have hm := List.mem_filter.mp hi
    exact hall i hm.1 (by simpa using hm.2)

/-- C8: every domain validator passes exactly when it collected no critical
issue; warnings and info never block, and the collected issues (including
warnings) are reported in the result details. -/
theorem c8_validator_pass_iff (k : VKind) (changes : List Change) (fs : FS) :
    ((validatorResult k changes fs).passed = true ↔
      ∀ i ∈ validatorIssues k changes fs, i.severity ≠ "critical") ∧
    (validatorResult k changes fs).details.issues = validatorIssues k changes fs := by
  cases k
  · exact assembleValidationResult_spec _ _ _ _
  · exact assembleValidationResult_spec _ _ _ _
  · exact assembleValidationResult_spec _ _ _ _

/-- C9, counterexample: two runs of CompletionVerifier.verify on the same
task, claim and unchanged filesystem but with different measured wall-clock
durations return outcomes that are not equal, because duration_ms differs. -/
theorem c9_counterexample :
    verifierVerify {} { domain := .backend } {} (fun _ => none) (fun _ => none) 0 ≠
      verifierVerify {} { domain := .backend } {} (fun _ => none) (fun _ => none) 5 := by
  decide

/-- C9, amended: two runs of verify on the same (task, claim) pair and
unchanged filesystem agree on result, reason, details and checks; only
duration_ms, which records the measured wall-clock time of the run, may
differ. -/
theorem c9_deterministic_modulo_duration (cfg : VerificationConfig) (task : TaskState)
    (r : ClaimedResult) (fsW fsE : FS) (e1 e2 : Int) :
    (verifierVerify cfg task r fsW fsE e1).result =
      (verifierVerify cfg task r fsW fsE e2).result ∧
    (verifierVerify cfg task r fsW fsE e1).reason =
      (verifierVerify cfg task r fsW fsE e2).reason ∧
    (verifierVerify cfg task r fsW fsE e1).details =
      (verifierVerify cfg task r fsW fsE e2).details ∧
    (verifierVerify cfg task r fsW fsE e1).checks =
      (verifierVerify cfg task r fsW fsE e2).checks ∧
    (verifierVerify cfg task r fsW fsE e1).duration_ms = e1 :=
  ⟨rfl, rfl, rfl, rfl, rfl⟩

/-- Map-and-flatten of per-element empty lists is empty. -/
theorem flattenMap_nil {α β : Type} (f : α → List β) (l : List α)
    (h : ∀ a ∈ l, f a = []) : (l.map f).flatten = [] := by
  rw [List.flatten_eq_nil_iff]
  intro x hx
  obtain ⟨a, ha, rfl⟩ := List.mem_map.mp hx
  exact h a ha

/-- C10: a change entry with an absent or empty file_path is skipped by the
files-exist check, the files-modified check (verifier and stage gate alike)
and every domain validator, so a claim of only such entries contributes no
missing files, no not-modified files, and no validation issues. -/
theorem c10_falsy_paths (changes : List Change) (fsW fsE : FS) (st : Int)
    (h : ∀ c ∈ changes, c.file_path = none ∨ c.file_path = some "") :
    missingFilesList changes fsW = [] ∧
    notModifiedList changes fsW st = [] ∧
    gateMissingFiles changes fsW = [] ∧
    gateNotModified changes fsW st = [] ∧
    validatorIssues .frontend changes fsE = [] ∧
    validatorIssues .backend changes fsE = [] ∧
    validatorIssues .memory changes fsE = [] := by
  have hD : ∀ c ∈ changes, c.pathD = "" := by
    intro c hc
    rcases h c hc with h1 | h1 <;> simp [Change.pathD, h1]
  refine ⟨?_, ?_, ?_, ?_, ?_, ?_, ?_⟩
  · unfold missingFilesList
    rw [List.filterMap_eq_nil_iff]
    intro c hc
    rcases h c hc with h1 | h1 <;> simp [h1, strIsEmpty]
  · unfold notModifiedList
    rw [List.filterMap_eq_nil_iff]
    intro c hc
    rcases h c hc with h1 | h1 <;> simp [h1, strIsEmpty]
  · unfold gateMissingFiles
    rw [List.filterMap_eq_nil_iff]
    intro c hc
    simp [hD c hc, strIsEmpty]
  · unfold gateNotModified
    rw [List.filterMap_eq_nil_iff]
    intro c hc
    simp [hD c hc, strIsEmpty]
  · show frontendIssues changes fsE = []
    unfold frontendIssues
    exact flattenMap_nil _ _ (fun c hc => by simp [hD c hc, strIsEmpty])
  · show backendIssues changes fsE = []
    unfold backendIssues
    exact flattenMap_nil _ _ (fun c hc => by simp [hD c hc, strIsEmpty])
  · show memoryIssues changes fsE = []
    unfold memoryIssues
    exact flattenMap_nil _ _ (fun c hc => by simp [hD c hc, strIsEmpty])

/-- C10, witness: a claim consisting of one keyless entry and one
empty-string entry contributes nothing to any check. -/
theorem c10_witness :
    missingFilesList [{ file_path := none }, { file_path := some "" }]
      (fun _ => some {}) = [] ∧
    notModifiedList [{ file_path := none }, { file_path := some "" }]
      (fun _ => some {}) 0 = [] ∧
    gateMissingFiles [{ file_path := none }, { file_path := some "" }]
      (fun _ => some {}) = [] ∧
    gateNotModified [{ file_path := none }, { file_path := some "" }]
      (fun _ => some {}) 0 = [] ∧
    validatorIssues .frontend [{ file_path := none }, { file_path := some "" }]
      (fun _ => some {}) = [] ∧
    validatorIssues .backend [{ file_path := none }, { file_path := some "" }]
      (fun _ => some {}) = [] ∧
    validatorIssues .memory [{ file_path := none }, { file_path := some "" }]
      (fun _ => some {}) = [] :=
  c10_falsy_paths [{ file_path := none }, { file_path := some "" }]
    (fun _ => some {}) (fun _ => some {}) 0 (by decide)

end Vitana
